import Mathlib

/-!
Verification development for the YouTube topic-researcher pipeline.

The Python sources are embedded shallowly:
* `src/ai/topic_evaluator.py` — response parsing, scoring, fallback records,
  batch evaluation (`parseEvaluationResponse`, `defaultScores`, `evaluateTopic`,
  `batchEvaluateTopics`);
* `src/main.py` — deduplication, relevance filtering, trending suppression,
  threshold filtering and ranking;
* `src/youtube/competitor.py` — engagement enrichment, performance summary,
  upload-cadence computation.

Python floats are modelled as exact rationals (`ℚ`); the numeric literals the
code manipulates (small decimal weights, integer scores and counts) are exact
in both worlds.  `re.search` with the fixed patterns used by the code is
modelled by explicit scanning functions over `List Char` that reproduce the
leftmost-match, greedy/lazy semantics of each concrete pattern.  A provider
call that raises is modelled as `Option.none`.
-/

/-- `\s` of Python's `re` (ASCII whitespace as produced by the evaluator). -/
def isSpaceChar (c : Char) : Bool :=
  c = ' ' || c = '\t' || c = '\n' || c = '\r' || c = '\x0b' || c = '\x0c'

/-- `\w` of Python's `re` restricted to ASCII: letters, digits, underscore. -/
def isWordChar (c : Char) : Bool :=
  c.isAlphanum || c = '_'

/-- Numeric value of a digit run captured by `(\d+)`. -/
def natOfDigits (l : List Char) : ℕ :=
  l.foldl (fun n c => 10 * n + (c.toNat - '0'.toNat)) 0

/-- Case-insensitive literal match of `label` (given lowercase) at the head of
the text, as `re.IGNORECASE` does for the fixed labels of the patterns. -/
def ciStartsWith : List Char → List Char → Bool
  | [], _ => true
  | _ :: _, [] => false
  | a :: as, b :: bs => (a == b.toLower) && ciStartsWith as bs

/-- Continuation of the pattern `LABEL:\s*(\d+)` after the literal label:
skip whitespace greedily, then capture a maximal nonempty digit run.
(`\s*` backtracking cannot help here: a whitespace character is never a
digit, so if the maximal skip finds no digit the position fails.) -/
def digitsAfterLabel (t : List Char) : Option (List Char) :=
  let r := t.dropWhile isSpaceChar
  let ds := r.takeWhile Char.isDigit
  if ds.isEmpty then none else some ds

/-- Continuation of `LABEL:\s*(\w+)`: skip whitespace, capture a maximal
nonempty run of word characters. -/
def wordAfterLabel (t : List Char) : Option (List Char) :=
  let r := t.dropWhile isSpaceChar
  let ds := r.takeWhile isWordChar
  if ds.isEmpty then none else some ds

/-- Continuation of `LABEL:\s*(.+?)(?:\n|$)` (no DOTALL): after the greedy
whitespace skip the lazy `(.+?)` captures up to the first newline or the end.
When everything after the label is whitespace, backtracking over `\s*`
surrenders exactly one character — the last one that is not a newline. -/
def lineAfterLabel (t : List Char) : Option (List Char) :=
  let r := t.dropWhile isSpaceChar
  if r.isEmpty then
    (t.filter (fun c => c != '\n')).getLast?.map (fun c => [c])
  else
    some (r.takeWhile (fun c => c != '\n'))

/-- Lazy body of the NOTES capture: at least one character (any character,
`re.DOTALL`), stopping as soon as a blank line `\n\n` follows. -/
def notesTail : List Char → List Char
  | '\n' :: '\n' :: _ => []
  | [] => []
  | c :: rest => c :: notesTail rest

/-- Continuation of `NOTES:\s*(.+?)(?:\n\n|$)` with `re.DOTALL`. -/
def notesAfterLabel (t : List Char) : Option (List Char) :=
  let r := t.dropWhile isSpaceChar
  if r.isEmpty then
    t.getLast?.map (fun c => [c])
  else
    match r with
    | [] => none
    | c :: rest => some (c :: notesTail rest)

/-- `re.search` for a pattern `LABEL` followed by a continuation `extract`:
scan positions left to right, succeed at the first position where the label
matches case-insensitively and the continuation succeeds. -/
def searchWith (label : List Char) (extract : List Char → Option (List Char)) :
    List Char → Option (List Char)
  | [] => none
  | c :: rest =>
    if ciStartsWith label (c :: rest) then
      match extract ((c :: rest).drop label.length) with
      | some v => some v
      | none => searchWith label extract rest
    else
      searchWith label extract rest

/-- `re.search(r'LABEL:\s*(\d+)', response, re.IGNORECASE)`. -/
def searchLabeledNat (label : List Char) (text : List Char) : Option ℕ :=
  (searchWith label digitsAfterLabel text).map natOfDigits

/-- `re.search(r'LABEL:\s*(\w+)', response, re.IGNORECASE)`. -/
def searchLabeledWord (label : List Char) (text : List Char) : Option (List Char) :=
  searchWith label wordAfterLabel text

/-- `re.search(r'LABEL:\s*(.+?)(?:\n|$)', response, re.IGNORECASE)`. -/
def searchLabeledLine (label : List Char) (text : List Char) : Option (List Char) :=
  searchWith label lineAfterLabel text

/-- `re.search(r'NOTES:\s*(.+?)(?:\n\n|$)', response, re.IGNORECASE | re.DOTALL)`. -/
def searchLabeledNotes (label : List Char) (text : List Char) : Option (List Char) :=
  searchWith label notesAfterLabel text

/-- Python `str.strip()` on captured characters. -/
def stripChars (l : List Char) : List Char :=
  ((l.dropWhile isSpaceChar).reverse.dropWhile isSpaceChar).reverse

/-- Python `str.split(',')`: split at every comma, yielding `n+1` parts. -/
def splitComma : List Char → List (List Char)
  | [] => [[]]
  | c :: rest =>
    match splitComma rest with
    | [] => [[]]
    | p :: ps => if c = ',' then [] :: p :: ps else (c :: p) :: ps

def importanceLabel : List Char := "importance:".toList
def watchabilityLabel : List Char := "watchability:".toList
def monetizationLabel : List Char := "monetization:".toList
def popularityLabel : List Char := "popularity:".toList
def innovationLabel : List Char := "innovation:".toList
def angleLabel : List Char := "recommended angle:".toList
def keywordsLabel : List Char := "keywords:".toList
def competitionLabel : List Char := "competition level:".toList
def notesLabel : List Char := "notes:".toList

/-- The dictionary built by `TopicEvaluator._parse_evaluation_response`. -/
structure Scores where
  importance_score : ℚ
  watchability_score : ℚ
  monetization_score : ℚ
  popularity_score : ℚ
  innovation_score : ℚ
  total_score : ℚ
  recommended_angle : String
  keywords : List String
  competition_level : String
  notes : String
deriving Repr, DecidableEq

/-- `TopicEvaluator._parse_evaluation_response`. -/
def parseEvaluationResponse (response : String) : Scores :=
  let cs := response.toList
  let imp : ℚ := ((searchLabeledNat importanceLabel cs).getD 0 : ℕ)
  let watch : ℚ := ((searchLabeledNat watchabilityLabel cs).getD 0 : ℕ)
  let mon : ℚ := ((searchLabeledNat monetizationLabel cs).getD 0 : ℕ)
  let pop : ℚ := ((searchLabeledNat popularityLabel cs).getD 0 : ℕ)
  let innov : ℚ := ((searchLabeledNat innovationLabel cs).getD 0 : ℕ)
  let total : ℚ :=
    imp * (0.25 : ℚ) + watch * (0.20 : ℚ) + mon * (0.20 : ℚ) +
      pop * (0.20 : ℚ) + innov * (0.15 : ℚ)
  let angle : String :=
    match searchLabeledLine angleLabel cs with
    | some cap => String.mk (stripChars cap)
    | none => ""
  let kws : List String :=
    match searchLabeledLine keywordsLabel cs with
    | some cap => (splitComma (stripChars cap)).map (fun p => String.mk (stripChars p))
    | none => []
  let comp : String :=
    match searchLabeledWord competitionLabel cs with
    | some cap => String.mk (stripChars cap)
    | none => "Medium"
  let nts : String :=
    match searchLabeledNotes notesLabel cs with
    | some cap => String.mk (stripChars cap)
    | none => ""
  { importance_score := imp
    watchability_score := watch
    monetization_score := mon
    popularity_score := pop
    innovation_score := innov
    total_score := total
    recommended_angle := angle
    keywords := kws
    competition_level := comp
    notes := nts }

/-- The record returned by `TopicEvaluator.evaluate_topic`: the parse result
plus the raw analysis text and the topic itself. -/
structure TopicEvaluation extends Scores where
  topic : String
  ai_analysis : String
deriving Repr, DecidableEq

/-- `TopicEvaluator._default_scores`. -/
def defaultScores (topic : String) : TopicEvaluation :=
  { topic := topic
    importance_score := 50
    watchability_score := 50
    monetization_score := 50
    popularity_score := 50
    innovation_score := 50
    total_score := 50
    recommended_angle := "Standard approach"
    keywords := []
    competition_level := "Medium"
    notes := "Evaluation failed - using default scores"
    ai_analysis := "" }

/-- `TopicEvaluator.evaluate_topic`.  The provider interaction (prompt
construction plus `_call_ai`) is modelled by its outcome: `none` when it
raises, `some response` when it returns text.  The surrounding
`try/except` turns `none` into the uniform default record. -/
def evaluateTopic (topic : String) (callResult : Option String) : TopicEvaluation :=
  match callResult with
  | none => defaultScores topic
  | some response =>
    { toScores := parseEvaluationResponse response
      topic := topic
      ai_analysis := response }

/-- Descending-by-total-score comparison used by the stable sorts of
`batch_evaluate_topics` (Python `list.sort(key=..., reverse=True)`). -/
def evalGe (a b : TopicEvaluation) : Prop :=
  b.total_score ≤ a.total_score

instance : DecidableRel evalGe :=
  fun a b => inferInstanceAs (Decidable (b.total_score ≤ a.total_score))

instance : IsTotal TopicEvaluation evalGe :=
  ⟨fun a b => (le_total a.total_score b.total_score).symm⟩

instance : IsTrans TopicEvaluation evalGe :=
  ⟨fun _ _ _ hab hbc => le_trans hbc hab⟩

/-- `TopicEvaluator.batch_evaluate_topics`: evaluate each topic in order (each
call absorbing its own provider failure), then sort by total score
descending.  `callResults` gives each topic's provider outcome. -/
def batchEvaluateTopics (topics : List String) (callResults : String → Option String) :
    List TopicEvaluation :=
  let results := topics.map (fun t => evaluateTopic t (callResults t))
  results.insertionSort evalGe

/-! ### `src/main.py` — discovery pipeline pieces -/

/-- A discovered candidate topic (`{'title': ..., 'source': ...}` dictionaries
merged from the discovery sources). -/
structure Topic where
  title : String
  source : String
deriving Repr, DecidableEq

/-- Python `str.lower()`: lowercase character by character. -/
def lowerString (s : String) : String :=
  String.mk (s.data.map Char.toLower)

/-- Loop body of `ContentResearcherAgent._deduplicate_topics`: `seen`
is the set of lowercased titles seen so far. -/
def dedupeGo (seen : List String) : List Topic → List Topic
  | [] => []
  | t :: rest =>
    if lowerString t.title ∈ seen then dedupeGo seen rest
    else t :: dedupeGo (lowerString t.title :: seen) rest

/-- `ContentResearcherAgent._deduplicate_topics`. -/
def deduplicateTopics (topics : List Topic) : List Topic :=
  dedupeGo [] topics

/-- The deny-list of `_is_relevant_to_channel` (`irrelevant_keywords`). -/
def irrelevantKeywords : List String :=
  ["music video", "official video", "mv", "trailer", "teaser",
   "gameplay", "let\x27s play", "gaming", "fortnite", "roblox",
   "tiktok", "brainrot", "steal a", "admin abuse",
   "official music", "ft.", "feat.", "prod. by",
   "(official", "official trailer"]

/-- The allow-list of `_is_relevant_to_channel` (`relevant_keywords`). -/
def relevantKeywords : List String :=
  ["tutorial", "guide", "how to", "learn", "course", "lesson",
   "tech", "ai", "programming", "code", "software", "data",
   "business", "startup", "entrepreneur", "marketing", "strategy",
   "explained", "introduction", "beginner", "advanced", "tips",
   "review", "comparison", "vs", "best", "top"]

/-- Substring scan: does `pat` occur as a prefix at some position of `s`? -/
def containsChars (s pat : List Char) : Bool :=
  match s with
  | [] => pat.isEmpty
  | _ :: rest => pat.isPrefixOf s || containsChars rest pat

/-- Python's substring test `pat in s`. -/
def strContains (s pat : String) : Bool :=
  containsChars s.toList pat.toList

/-- A search-result video as consumed by the relevance filter
(`video.get('title', '')`). -/
structure SearchVideo where
  title : String
deriving Repr, DecidableEq

/-- `ContentResearcherAgent._is_relevant_to_channel`: reject on any deny-list
hit, otherwise require at least one allow-list hit. -/
def isRelevantToChannel (video : SearchVideo) : Bool :=
  let t := lowerString video.title
  if irrelevantKeywords.any (fun k => strContains t k) then false
  else relevantKeywords.any (fun k => strContains t k)

/-- Channel info as used by `_discover_from_trending`
(`self.channel_info.get('subscriber_count', 0)`); `none` models a falsy
`self.channel_info`. -/
structure ChannelInfo where
  title : String
  subscriber_count : ℕ
deriving Repr, DecidableEq

/-- `ContentResearcherAgent._discover_from_trending`: trending is skipped for
channels with a nonzero subscriber count; the source contributes nothing in
the remaining cases either. -/
def discoverFromTrending (channel_info : Option ChannelInfo) : List Topic :=
  match channel_info with
  | some ci => if ci.subscriber_count > 0 then [] else []
  | none => []

/-- An evaluated candidate as ranked by `research_topics` (the merge of the
discovery record with its evaluation; only the fields the ranking step reads
are carried). -/
structure EvaluatedTopic where
  title : String
  total_score : ℚ
deriving Repr, DecidableEq

/-- Descending-by-total-score comparison for the pipeline's stable ranking
sort (`high_quality.sort(key=..., reverse=True)`). -/
def scoreGe (a b : EvaluatedTopic) : Prop :=
  b.total_score ≤ a.total_score

instance : DecidableRel scoreGe :=
  fun a b => inferInstanceAs (Decidable (b.total_score ≤ a.total_score))

instance : IsTotal EvaluatedTopic scoreGe :=
  ⟨fun a b => (le_total a.total_score b.total_score).symm⟩

instance : IsTrans EvaluatedTopic scoreGe :=
  ⟨fun _ _ _ hab hbc => le_trans hbc hab⟩

/-- Phase 3 of `ContentResearcherAgent.research_topics`: keep candidates with
`total_score >= min_score`, then stable-sort by score descending.  (Python's
`list.sort` is stable, and a stable sort of a list under a total preorder is
unique; insertion sort realises it.) -/
def filterAndRank (evaluated : List EvaluatedTopic) (minScore : ℚ) : List EvaluatedTopic :=
  (evaluated.filter (fun t => minScore ≤ t.total_score)).insertionSort scoreGe

/-! ### `src/youtube/competitor.py` — statistics over fetched videos -/

/-- Raw per-video statistics delivered by the batch stats call. -/
structure VideoStats where
  view_count : ℕ
  like_count : ℕ
  comment_count : ℕ
deriving Repr, DecidableEq

/-- A video after `CompetitorAnalyzer._enrich_video_stats`. -/
structure EnrichedVideo extends VideoStats where
  engagement_rate : ℚ
deriving Repr, DecidableEq

/-- The enrichment step of `_enrich_video_stats`: engagement rate is
`(likes + comments) / views * 100`, and `0` when `views = 0`. -/
def enrichVideo (v : VideoStats) : EnrichedVideo :=
  { v with
    engagement_rate :=
      if v.view_count > 0 then
        ((v.like_count + v.comment_count : ℕ) : ℚ) / (v.view_count : ℚ) * 100
      else 0 }

/-- `statistics.mean`. -/
def listMean (l : List ℚ) : ℚ :=
  l.sum / l.length

/-- `statistics.median`: middle element of the sorted list, or the average of
the two middle elements for an even length. -/
def listMedian (l : List ℚ) : ℚ :=
  let s := l.mergeSort (· ≤ ·)
  let n := l.length
  if n % 2 = 1 then s.getD (n / 2) 0
  else (s.getD (n / 2 - 1) 0 + s.getD (n / 2) 0) / 2

/-- The summary dictionary of `_analyze_video_performance`. -/
structure Performance where
  avg_views : ℚ
  median_views : ℚ
  avg_engagement_rate : ℚ
  top_videos : List EnrichedVideo
deriving Repr, DecidableEq

/-- `CompetitorAnalyzer._analyze_video_performance`: the comprehensions filter
on truthiness of `view_count` and of `engagement_rate` respectively. -/
def analyzeVideoPerformance (videos : List EnrichedVideo) : Performance :=
  if videos.isEmpty then
    { avg_views := 0, median_views := 0, avg_engagement_rate := 0, top_videos := [] }
  else
    let view_counts :=
      (videos.filter (fun v => v.view_count != 0)).map (fun v => (v.view_count : ℚ))
    let engagement_rates :=
      (videos.filter (fun v => v.engagement_rate != 0)).map (fun v => v.engagement_rate)
    { avg_views := if view_counts.isEmpty then 0 else listMean view_counts
      median_views := if view_counts.isEmpty then 0 else listMedian view_counts
      avg_engagement_rate :=
        if engagement_rates.isEmpty then 0 else listMean engagement_rates
      top_videos :=
        (videos.mergeSort (fun a b => b.view_count ≤ a.view_count)).take 5 }

/-- A playlist video as seen by `_calculate_upload_frequency`: the outcome of
`datetime.fromisoformat` on its `published_at` field, as an epoch-second
timestamp; `none` when parsing raised and the loop `continue`d. -/
structure DatedVideo where
  published_at : Option ℤ
deriving Repr, DecidableEq

/-- `dates.sort(); (dates[-1] - dates[0])` in seconds: the last element of
the sorted list minus the first is the maximum minus the minimum. -/
def spanSeconds (dates : List ℤ) : ℤ :=
  match dates with
  | [] => 0
  | d :: rest => rest.foldl max d - rest.foldl min d

/-- The `dates` list of `_calculate_upload_frequency`: the videos whose
`published_at` parsed (the `try/except` loop keeps only successes). -/
def parsedDates (videos : List DatedVideo) : List ℤ :=
  videos.filterMap (fun v => v.published_at)

/-- `total_days = (dates[-1] - dates[0]).days`. -/
def spanDays (videos : List DatedVideo) : ℤ :=
  spanSeconds (parsedDates videos) / 86400

/-- `videos_per_week = len(videos) / (total_days / 7)` before rounding. -/
def rawRate (videos : List DatedVideo) : ℚ :=
  (videos.length : ℚ) / ((spanDays videos : ℚ) / 7)

/-- Banker's rounding of a rational to an integer (Python `round`). -/
def roundHalfEven (q : ℚ) : ℤ :=
  let f := ⌊q⌋
  let frac := q - (f : ℚ)
  if frac < 1 / 2 then f
  else if 1 / 2 < frac then f + 1
  else if f % 2 = 0 then f else f + 1

/-- Python `round(x, 1)`. -/
def pythonRound1 (q : ℚ) : ℚ :=
  ((roundHalfEven (q * 10) : ℤ) : ℚ) / 10

/-- The cadence dictionary of `_calculate_upload_frequency`. -/
structure UploadFrequency where
  videos_per_week : ℚ
  consistency : String
deriving Repr, DecidableEq

/-- `CompetitorAnalyzer._calculate_upload_frequency`: guards for fewer than two
videos, fewer than two parseable dates, and a zero-day span; otherwise the
weekly rate `len(videos) / (total_days / 7)`, classified and rounded to one
decimal. -/
def calculateUploadFrequency (videos : List DatedVideo) : UploadFrequency :=
  if videos.length < 2 then { videos_per_week := 0, consistency := "unknown" }
  else if (parsedDates videos).length < 2 then
    { videos_per_week := 0, consistency := "unknown" }
  else if spanDays videos = 0 then { videos_per_week := 0, consistency := "unknown" }
  else
    let videosPerWeek : ℚ := rawRate videos
    let consistency : String :=
      if videosPerWeek ≥ 7 then "daily"
      else if videosPerWeek ≥ 3 then "frequent"
      else if videosPerWeek ≥ 1 then "weekly"
      else "occasional"
    { videos_per_week := pythonRound1 videosPerWeek, consistency := consistency }

/-! ### Field lemmas for the parsed evaluation record -/

theorem parse_importance_eq (r : String) :
    (parseEvaluationResponse r).importance_score =
      (((searchLabeledNat importanceLabel r.toList).getD 0 : ℕ) : ℚ) := rfl

theorem parse_watchability_eq (r : String) :
    (parseEvaluationResponse r).watchability_score =
      (((searchLabeledNat watchabilityLabel r.toList).getD 0 : ℕ) : ℚ) := rfl

theorem parse_monetization_eq (r : String) :
    (parseEvaluationResponse r).monetization_score =
      (((searchLabeledNat monetizationLabel r.toList).getD 0 : ℕ) : ℚ) := rfl

theorem parse_popularity_eq (r : String) :
    (parseEvaluationResponse r).popularity_score =
      (((searchLabeledNat popularityLabel r.toList).getD 0 : ℕ) : ℚ) := rfl

theorem parse_innovation_eq (r : String) :
    (parseEvaluationResponse r).innovation_score =
      (((searchLabeledNat innovationLabel r.toList).getD 0 : ℕ) : ℚ) := rfl

theorem parse_total_eq (r : String) :
    (parseEvaluationResponse r).total_score =
      (parseEvaluationResponse r).importance_score * (0.25 : ℚ) +
      (parseEvaluationResponse r).watchability_score * (0.20 : ℚ) +
      (parseEvaluationResponse r).monetization_score * (0.20 : ℚ) +
      (parseEvaluationResponse r).popularity_score * (0.20 : ℚ) +
      (parseEvaluationResponse r).innovation_score * (0.15 : ℚ) := rfl

theorem parse_competition_eq (r : String) :
    (parseEvaluationResponse r).competition_level =
      (match searchLabeledWord competitionLabel r.toList with
        | some cap => String.mk (stripChars cap)
        | none => "Medium") := rfl

/-- An evaluator response filling all five dimensions with 100. -/
def respAll100 : String :=
  "IMPORTANCE: 100\nWATCHABILITY: 100\nMONETIZATION: 100\nPOPULARITY: 100\nINNOVATION: 100"

/-- An evaluator response filling all five dimensions with 0. -/
def respAll0 : String :=
  "IMPORTANCE: 0\nWATCHABILITY: 0\nMONETIZATION: 0\nPOPULARITY: 0\nINNOVATION: 0"

/-- C1: for every parsed evaluator response, `total_score` is the fixed
weighted sum `importance*0.25 + watchability*0.20 + monetization*0.20 +
popularity*0.20 + innovation*0.15`; a dimension whose labeled line is missing
contributes `0`; the sum is computed however many dimensions parsed, and all
five at 100 give total 100 while all five at 0 give total 0. -/
theorem total_score_weighted_sum :
    (∀ r : String,
      (parseEvaluationResponse r).total_score =
        (parseEvaluationResponse r).importance_score * (0.25 : ℚ) +
        (parseEvaluationResponse r).watchability_score * (0.20 : ℚ) +
        (parseEvaluationResponse r).monetization_score * (0.20 : ℚ) +
        (parseEvaluationResponse r).popularity_score * (0.20 : ℚ) +
        (parseEvaluationResponse r).innovation_score * (0.15 : ℚ)) ∧
    (∀ r : String, searchLabeledNat importanceLabel r.toList = none →
      (parseEvaluationResponse r).importance_score = 0) ∧
    (∀ r : String, searchLabeledNat watchabilityLabel r.toList = none →
      (parseEvaluationResponse r).watchability_score = 0) ∧
    (∀ r : String, searchLabeledNat monetizationLabel r.toList = none →
      (parseEvaluationResponse r).monetization_score = 0) ∧
    (∀ r : String, searchLabeledNat popularityLabel r.toList = none →
      (parseEvaluationResponse r).popularity_score = 0) ∧
    (∀ r : String, searchLabeledNat innovationLabel r.toList = none →
      (parseEvaluationResponse r).innovation_score = 0) ∧
    (parseEvaluationResponse respAll100).total_score = 100 ∧
    (parseEvaluationResponse respAll0).total_score = 0 := by
  refine ⟨fun r => parse_total_eq r, ?_, ?_, ?_, ?_, ?_, ?_, ?_⟩
  · intro r h; rw [parse_importance_eq, h]; norm_num
  · intro r h; rw [parse_watchability_eq, h]; norm_num
  · intro r h; rw [parse_monetization_eq, h]; norm_num
  · intro r h; rw [parse_popularity_eq, h]; norm_num
  · intro r h; rw [parse_innovation_eq, h]; norm_num
  · have h1 : searchLabeledNat importanceLabel respAll100.toList = some 100 := by decide
    have h2 : searchLabeledNat watchabilityLabel respAll100.toList = some 100 := by decide
    have h3 : searchLabeledNat monetizationLabel respAll100.toList = some 100 := by decide
    have h4 : searchLabeledNat popularityLabel respAll100.toList = some 100 := by decide
    have h5 : searchLabeledNat innovationLabel respAll100.toList = some 100 := by decide
    rw [parse_total_eq, parse_importance_eq, parse_watchability_eq, parse_monetization_eq,
      parse_popularity_eq, parse_innovation_eq, h1, h2, h3, h4, h5]
    norm_num
  · have h1 : searchLabeledNat importanceLabel respAll0.toList = some 0 := by decide
    have h2 : searchLabeledNat watchabilityLabel respAll0.toList = some 0 := by decide
    have h3 : searchLabeledNat monetizationLabel respAll0.toList = some 0 := by decide
    have h4 : searchLabeledNat popularityLabel respAll0.toList = some 0 := by decide
    have h5 : searchLabeledNat innovationLabel respAll0.toList = some 0 := by decide
    rw [parse_total_eq, parse_importance_eq, parse_watchability_eq, parse_monetization_eq,
      parse_popularity_eq, parse_innovation_eq, h1, h2, h3, h4, h5]
    norm_num

/-- Witness for C1: on a response with no labeled lines at all, every
dimension that failed to parse contributes 0. -/
theorem total_score_weighted_sum_witness :
    (parseEvaluationResponse "no labels here").importance_score = 0 :=
  total_score_weighted_sum.2.1 "no labels here" (by decide)

/-- A response on which none of the parser's labeled patterns matches
("entirely unparseable", in the spec's words). -/
def noRecognizedLines (r : String) : Prop :=
  searchLabeledNat importanceLabel r.toList = none ∧
  searchLabeledNat watchabilityLabel r.toList = none ∧
  searchLabeledNat monetizationLabel r.toList = none ∧
  searchLabeledNat popularityLabel r.toList = none ∧
  searchLabeledNat innovationLabel r.toList = none ∧
  searchLabeledLine angleLabel r.toList = none ∧
  searchLabeledLine keywordsLabel r.toList = none ∧
  searchLabeledWord competitionLabel r.toList = none ∧
  searchLabeledNotes notesLabel r.toList = none

instance (r : String) : Decidable (noRecognizedLines r) := by
  unfold noRecognizedLines; infer_instance

/-- C2: a provider-call (or prompt-construction) exception yields the uniform
fallback record — every dimension 50, total 50, competition level Medium,
empty keywords — while a successful call whose response has no recognizable
labeled lines yields every dimension 0, total 0, competition level Medium,
and never the uniform-50 fallback. -/
theorem evaluateTopic_failure_modes :
    (∀ topic : String,
      evaluateTopic topic none = defaultScores topic ∧
      (defaultScores topic).importance_score = 50 ∧
      (defaultScores topic).watchability_score = 50 ∧
      (defaultScores topic).monetization_score = 50 ∧
      (defaultScores topic).popularity_score = 50 ∧
      (defaultScores topic).innovation_score = 50 ∧
      (defaultScores topic).total_score = 50 ∧
      (defaultScores topic).competition_level = "Medium" ∧
      (defaultScores topic).keywords = []) ∧
    (∀ topic r : String, noRecognizedLines r →
      (evaluateTopic topic (some r)).importance_score = 0 ∧
      (evaluateTopic topic (some r)).watchability_score = 0 ∧
      (evaluateTopic topic (some r)).monetization_score = 0 ∧
      (evaluateTopic topic (some r)).popularity_score = 0 ∧
      (evaluateTopic topic (some r)).innovation_score = 0 ∧
      (evaluateTopic topic (some r)).total_score = 0 ∧
      (evaluateTopic topic (some r)).competition_level = "Medium" ∧
      evaluateTopic topic (some r) ≠ defaultScores topic) := by
  constructor
  · intro topic
    exact ⟨rfl, rfl, rfl, rfl, rfl, rfl, rfl, rfl, rfl⟩
  · intro topic r h
    obtain ⟨h1, h2, h3, h4, h5, _, _, hcomp, _⟩ := h
    have e1 : (evaluateTopic topic (some r)).importance_score = 0 := by
      show (parseEvaluationResponse r).importance_score = 0
      rw [parse_importance_eq, h1]; norm_num
    have e2 : (evaluateTopic topic (some r)).watchability_score = 0 := by
      show (parseEvaluationResponse r).watchability_score = 0
      rw [parse_watchability_eq, h2]; norm_num
    have e3 : (evaluateTopic topic (some r)).monetization_score = 0 := by
      show (parseEvaluationResponse r).monetization_score = 0
      rw [parse_monetization_eq, h3]; norm_num
    have e4 : (evaluateTopic topic (some r)).popularity_score = 0 := by
      show (parseEvaluationResponse r).popularity_score = 0
      rw [parse_popularity_eq, h4]; norm_num
    have e5 : (evaluateTopic topic (some r)).innovation_score = 0 := by
      show (parseEvaluationResponse r).innovation_score = 0
      rw [parse_innovation_eq, h5]; norm_num
    have etotal : (evaluateTopic topic (some r)).total_score = 0 := by
      show (parseEvaluationResponse r).total_score = 0
      rw [parse_total_eq, parse_importance_eq, parse_watchability_eq, parse_monetization_eq,
        parse_popularity_eq, parse_innovation_eq, h1, h2, h3, h4, h5]
      norm_num
    have ecomp : (evaluateTopic topic (some r)).competition_level = "Medium" := by
      show (parseEvaluationResponse r).competition_level = "Medium"
      rw [parse_competition_eq, hcomp]
    refine ⟨e1, e2, e3, e4, e5, etotal, ecomp, ?_⟩
    intro he
    have h50 : (evaluateTopic topic (some r)).total_score = (defaultScores topic).total_score := by
      rw [he]
    rw [etotal] at h50
    have : (defaultScores topic).total_score = 50 := rfl
    rw [this] at h50
    norm_num at h50

/-- Witness for C2: a concrete unrecognizable response on a successful call
gives total score 0, not the 50-fallback. -/
theorem evaluateTopic_failure_modes_witness :
    (evaluateTopic "quantum computing" (some "hello world")).total_score = 0 :=
  (evaluateTopic_failure_modes.2 "quantum computing" "hello world" (by decide)).2.2.2.2.2.1

/-- C5 counterexample: the parser performs no clamping and no vocabulary
check — the labeled integer 150 flows through as a score above 100, and an
arbitrary word after COMPETITION LEVEL is stored verbatim, so the claimed
domains do not hold for every response text. -/
theorem evaluation_domains_counterexample :
    (parseEvaluationResponse "IMPORTANCE: 150").importance_score = 150 ∧
    ¬ (parseEvaluationResponse "IMPORTANCE: 150").importance_score ≤ 100 ∧
    (parseEvaluationResponse "COMPETITION LEVEL: Extreme").competition_level = "Extreme" ∧
    (parseEvaluationResponse "COMPETITION LEVEL: Extreme").competition_level ∉
      (["Low", "Medium", "High"] : List String) := by
  have h150 : searchLabeledNat importanceLabel ("IMPORTANCE: 150").toList = some 150 := by
    decide
  have himp : (parseEvaluationResponse "IMPORTANCE: 150").importance_score = 150 := by
    rw [parse_importance_eq, h150]; norm_num
  have hw : searchLabeledWord competitionLabel ("COMPETITION LEVEL: Extreme").toList =
      some ("Extreme".toList) := by decide
  have hcomp : (parseEvaluationResponse "COMPETITION LEVEL: Extreme").competition_level =
      "Extreme" := by
    rw [parse_competition_eq, hw]
    decide
  refine ⟨himp, ?_, hcomp, ?_⟩
  · rw [himp]; norm_num
  · rw [hcomp]; decide

/-- C5 (amended): every parsed dimension score is nonnegative and so is the
composite; all five dimension scores and the composite lie in [0,100] given
that every labeled integer parsed is at most 100; and competition_level is
the captured word, "Medium" when absent — so it lies in Low/Medium/High
exactly when the captured word does (or no word was captured). -/
theorem evaluation_domains_amended :
    ∀ r : String,
      (0 ≤ (parseEvaluationResponse r).importance_score ∧
       0 ≤ (parseEvaluationResponse r).watchability_score ∧
       0 ≤ (parseEvaluationResponse r).monetization_score ∧
       0 ≤ (parseEvaluationResponse r).popularity_score ∧
       0 ≤ (parseEvaluationResponse r).innovation_score ∧
       0 ≤ (parseEvaluationResponse r).total_score) ∧
      ((searchLabeledNat importanceLabel r.toList).getD 0 ≤ 100 →
       (searchLabeledNat watchabilityLabel r.toList).getD 0 ≤ 100 →
       (searchLabeledNat monetizationLabel r.toList).getD 0 ≤ 100 →
       (searchLabeledNat popularityLabel r.toList).getD 0 ≤ 100 →
       (searchLabeledNat innovationLabel r.toList).getD 0 ≤ 100 →
       ((parseEvaluationResponse r).importance_score ≤ 100 ∧
        (parseEvaluationResponse r).watchability_score ≤ 100 ∧
        (parseEvaluationResponse r).monetization_score ≤ 100 ∧
        (parseEvaluationResponse r).popularity_score ≤ 100 ∧
        (parseEvaluationResponse r).innovation_score ≤ 100 ∧
        0 ≤ (parseEvaluationResponse r).total_score ∧
        (parseEvaluationResponse r).total_score ≤ 100)) ∧
      (searchLabeledWord competitionLabel r.toList = none →
        (parseEvaluationResponse r).competition_level = "Medium") ∧
      (∀ w, searchLabeledWord competitionLabel r.toList = some w →
        (parseEvaluationResponse r).competition_level = String.mk (stripChars w)) := by
  intro r
  have n1 : (0 : ℚ) ≤ (parseEvaluationResponse r).importance_score := by
    rw [parse_importance_eq]; exact Nat.cast_nonneg _
  have n2 : (0 : ℚ) ≤ (parseEvaluationResponse r).watchability_score := by
    rw [parse_watchability_eq]; exact Nat.cast_nonneg _
  have n3 : (0 : ℚ) ≤ (parseEvaluationResponse r).monetization_score := by
    rw [parse_monetization_eq]; exact Nat.cast_nonneg _
  have n4 : (0 : ℚ) ≤ (parseEvaluationResponse r).popularity_score := by
    rw [parse_popularity_eq]; exact Nat.cast_nonneg _
  have n5 : (0 : ℚ) ≤ (parseEvaluationResponse r).innovation_score := by
    rw [parse_innovation_eq]; exact Nat.cast_nonneg _
  have ntot : (0 : ℚ) ≤ (parseEvaluationResponse r).total_score := by
    rw [parse_total_eq]
    have t1 := mul_nonneg n1 (by norm_num : (0:ℚ) ≤ (0.25 : ℚ))
    have t2 := mul_nonneg n2 (by norm_num : (0:ℚ) ≤ (0.20 : ℚ))
    have t3 := mul_nonneg n3 (by norm_num : (0:ℚ) ≤ (0.20 : ℚ))
    have t4 := mul_nonneg n4 (by norm_num : (0:ℚ) ≤ (0.20 : ℚ))
    have t5 := mul_nonneg n5 (by norm_num : (0:ℚ) ≤ (0.15 : ℚ))
    linarith
  refine ⟨⟨n1, n2, n3, n4, n5, ntot⟩, ?_, ?_, ?_⟩
  · intro h1 h2 h3 h4 h5
    have b1 : (parseEvaluationResponse r).importance_score ≤ 100 := by
      rw [parse_importance_eq]; exact_mod_cast h1
    have b2 : (parseEvaluationResponse r).watchability_score ≤ 100 := by
      rw [parse_watchability_eq]; exact_mod_cast h2
    have b3 : (parseEvaluationResponse r).monetization_score ≤ 100 := by
      rw [parse_monetization_eq]; exact_mod_cast h3
    have b4 : (parseEvaluationResponse r).popularity_score ≤ 100 := by
      rw [parse_popularity_eq]; exact_mod_cast h4
    have b5 : (parseEvaluationResponse r).innovation_score ≤ 100 := by
      rw [parse_innovation_eq]; exact_mod_cast h5
    have btot : (parseEvaluationResponse r).total_score ≤ 100 := by
      rw [parse_total_eq]
      have w1 : (0.25 : ℚ) + 0.20 + 0.20 + 0.20 + 0.15 = 1 := by norm_num
      nlinarith [n1, n2, n3, n4, n5, b1, b2, b3, b4, b5]
    exact ⟨b1, b2, b3, b4, b5, ntot, btot⟩
  · intro hnone
    rw [parse_competition_eq, hnone]
  · intro w hw
    rw [parse_competition_eq, hw]

/-- Witness for C5 (amended): a concrete response with all labeled integers
at most 100 yields a composite score within [0,100]. -/
theorem evaluation_domains_amended_witness :
    (parseEvaluationResponse "IMPORTANCE: 80").total_score ≤ 100 :=
  ((evaluation_domains_amended "IMPORTANCE: 80").2.1
    (by decide) (by decide) (by decide) (by decide) (by decide)).2.2.2.2.2.2

/-! ### Deduplication (C4) -/

theorem dedupeGo_sublist (l : List Topic) :
    ∀ seen : List String, List.Sublist (dedupeGo seen l) l := by
  induction l with
  | nil => intro seen; simp [dedupeGo]
  | cons t rest ih =>
    intro seen
    unfold dedupeGo
    split
    · exact (ih seen).cons t
    · exact (ih (lowerString t.title :: seen)).cons₂ t

theorem dedupeGo_not_seen (l : List Topic) :
    ∀ seen : List String, ∀ u ∈ dedupeGo seen l, lowerString u.title ∉ seen := by
  induction l with
  | nil => intro seen u hu; simp [dedupeGo] at hu
  | cons t rest ih =>
    intro seen u hu
    unfold dedupeGo at hu
    split at hu
    · exact ih seen u hu
    · rcases List.mem_cons.mp hu with rfl | hmem
      · assumption
      · have := ih (lowerString t.title :: seen) u hmem
        exact fun hs => this (List.mem_cons_of_mem _ hs)

theorem dedupeGo_pairwise (l : List Topic) :
    ∀ seen : List String,
      (dedupeGo seen l).Pairwise (fun a b => lowerString a.title ≠ lowerString b.title) := by
  induction l with
  | nil => intro seen; simp [dedupeGo]
  | cons t rest ih =>
    intro seen
    unfold dedupeGo
    split
    · exact ih seen
    · refine List.Pairwise.cons ?_ (ih (lowerString t.title :: seen))
      intro u hu
      have := dedupeGo_not_seen rest (lowerString t.title :: seen) u hu
      exact fun he => this (he ▸ List.mem_cons_self _ _)

theorem dedupeGo_covers (l : List Topic) :
    ∀ seen : List String, ∀ t ∈ l,
      lowerString t.title ∈ seen ∨
        ∃ u ∈ dedupeGo seen l, lowerString u.title = lowerString t.title := by
  induction l with
  | nil => intro seen t ht; simp at ht
  | cons t rest ih =>
    intro seen x hx
    unfold dedupeGo
    split
    · rcases List.mem_cons.mp hx with rfl | hmem
      · exact Or.inl (by assumption)
      · exact ih seen x hmem
    · rcases List.mem_cons.mp hx with rfl | hmem
      · exact Or.inr ⟨x, List.mem_cons_self _ _, rfl⟩
      · rcases ih (lowerString t.title :: seen) x hmem with hseen | ⟨u, hu, he⟩
        · rcases List.mem_cons.mp hseen with heq | hs
          · exact Or.inr ⟨t, List.mem_cons_self _ _, heq.symm⟩
          · exact Or.inl hs
        · exact Or.inr ⟨u, List.mem_cons_of_mem _ hu, he⟩

theorem dedupeGo_first (l : List Topic) :
    ∀ seen : List String, ∀ u ∈ dedupeGo seen l,
      l.find? (fun x => lowerString x.title == lowerString u.title) = some u := by
  induction l with
  | nil => intro seen u hu; simp [dedupeGo] at hu
  | cons t rest ih =>
    intro seen u hu
    unfold dedupeGo at hu
    split at hu
    · have hnot := dedupeGo_not_seen rest seen u hu
      have hne : (lowerString t.title == lowerString u.title) = false := by
        rw [beq_eq_false_iff_ne]
        intro he
        exact hnot (he ▸ (by assumption : lowerString t.title ∈ seen))
      rw [List.find?_cons_of_neg _ (by simp [hne]), ih seen u hu]
    · rcases List.mem_cons.mp hu with rfl | hmem
      · rw [List.find?_cons_of_pos _ (by simp)]
      · have hnot := dedupeGo_not_seen rest (lowerString t.title :: seen) u hmem
        have hne : (lowerString t.title == lowerString u.title) = false := by
          rw [beq_eq_false_iff_ne]
          intro he
          exact hnot (he ▸ List.mem_cons_self _ _)
        rw [List.find?_cons_of_neg _ (by simp [hne]),
          ih (lowerString t.title :: seen) u hmem]

/-- C4: deduplication output has no two entries with case-insensitively equal
titles; for each lowercased title the first input occurrence is kept with its
record (source and metadata) unchanged, later duplicates are dropped, and the
output preserves first-seen input order (it is a sublist of the input). -/
theorem deduplicateTopics_spec :
    ∀ topics : List Topic,
      List.Sublist (deduplicateTopics topics) topics ∧
      (deduplicateTopics topics).Pairwise
        (fun a b => lowerString a.title ≠ lowerString b.title) ∧
      (∀ t ∈ topics, ∃ u ∈ deduplicateTopics topics,
        lowerString u.title = lowerString t.title) ∧
      (∀ u ∈ deduplicateTopics topics,
        topics.find? (fun x => lowerString x.title == lowerString u.title) = some u) := by
  intro topics
  refine ⟨dedupeGo_sublist topics [], dedupeGo_pairwise topics [], ?_, ?_⟩
  · intro t ht
    rcases dedupeGo_covers topics [] t ht with hseen | h
    · simp at hseen
    · exact h
  · exact dedupeGo_first topics []

/-- Witness for C4: in a concrete two-source duplicate list the first
occurrence (with its source) represents the title. -/
theorem deduplicateTopics_spec_witness :
    ∃ u ∈ deduplicateTopics [⟨"Hello", "search:x"⟩, ⟨"hello", "ai_generated"⟩],
      lowerString u.title = lowerString (Topic.mk "hello" "ai_generated").title :=
  (deduplicateTopics_spec [⟨"Hello", "search:x"⟩, ⟨"hello", "ai_generated"⟩]).2.2.1
    ⟨"hello", "ai_generated"⟩ (by decide)

/-! ### Relevance filter (C6) -/

theorem containsChars_iff (s pat : List Char) :
    containsChars s pat = true ↔ pat <:+: s := by
  induction s with
  | nil =>
    simp [containsChars, List.isEmpty_iff, List.infix_nil]
  | cons c rest ih =>
    rw [containsChars, Bool.or_eq_true, List.isPrefixOf_iff_prefix, ih,
      List.infix_cons_iff]

theorem isRelevant_of_deny (v : SearchVideo)
    (h : irrelevantKeywords.any (fun k => strContains (lowerString v.title) k) = true) :
    isRelevantToChannel v = false := by
  simp only [isRelevantToChannel, h, if_true]

theorem isRelevant_of_no_deny (v : SearchVideo)
    (h : irrelevantKeywords.any (fun k => strContains (lowerString v.title) k) = false) :
    isRelevantToChannel v =
      relevantKeywords.any (fun k => strContains (lowerString v.title) k) := by
  simp only [isRelevantToChannel, h]
  rfl

/-- C6: the relevance filter rejects every title containing a deny-list
string, regardless of allow-list hits (in particular any title containing
"official music video" is rejected); a title free of deny-list strings is
accepted exactly when it contains at least one allow-list keyword, so a
title matching neither list is rejected. -/
theorem isRelevantToChannel_spec :
    ∀ v : SearchVideo,
      ((∃ k ∈ irrelevantKeywords, strContains (lowerString v.title) k = true) →
        isRelevantToChannel v = false) ∧
      ((∀ k ∈ irrelevantKeywords, strContains (lowerString v.title) k = false) →
        (isRelevantToChannel v = true ↔
          ∃ k ∈ relevantKeywords, strContains (lowerString v.title) k = true)) ∧
      (strContains (lowerString v.title) "official music video" = true →
        isRelevantToChannel v = false) := by
  intro v
  have deny : (∃ k ∈ irrelevantKeywords, strContains (lowerString v.title) k = true) →
      isRelevantToChannel v = false := by
    intro ⟨k, hk, hck⟩
    exact isRelevant_of_deny v (List.any_eq_true.mpr ⟨k, hk, hck⟩)
  refine ⟨deny, ?_, ?_⟩
  · intro h
    have hany : irrelevantKeywords.any (fun k => strContains (lowerString v.title) k) = false := by
      rw [List.any_eq_false]
      intro k hk
      simp [h k hk]
    rw [isRelevant_of_no_deny v hany]
    exact List.any_eq_true
  · intro h
    have homv : ("official music video").toList <:+: (lowerString v.title).toList :=
      (containsChars_iff _ _).mp h
    have hsub : ("music video").toList <:+: ("official music video").toList :=
      (containsChars_iff _ _).mp (by decide)
    refine deny ⟨"music video", by decide, ?_⟩
    exact (containsChars_iff _ _).mpr (hsub.trans homv)

/-- Witness for C6: a concrete title carrying both a deny marker and an
allow keyword is rejected. -/
theorem isRelevantToChannel_spec_witness :
    isRelevantToChannel ⟨"Official Music Video tutorial"⟩ = false :=
  (isRelevantToChannel_spec ⟨"Official Music Video tutorial"⟩).2.2 (by decide)

/-! ### Trending suppression (C8) -/

/-- C8: when a channel with nonzero subscribers is configured the trending
source returns no candidates; and the trending source could only ever
contribute for a brand-new or unconfigured channel (no channel info, or a
zero subscriber count). -/
theorem discoverFromTrending_suppressed :
    (∀ ci : ChannelInfo, ci.subscriber_count > 0 →
      discoverFromTrending (some ci) = []) ∧
    (∀ o : Option ChannelInfo, discoverFromTrending o ≠ [] →
      o = none ∨ ∃ ci, o = some ci ∧ ci.subscriber_count = 0) := by
  constructor
  · intro ci _
    show (if ci.subscriber_count > 0 then ([] : List Topic) else []) = []
    split <;> rfl
  · intro o h
    exfalso
    apply h
    cases o with
    | none => rfl
    | some ci =>
      show (if ci.subscriber_count > 0 then ([] : List Topic) else []) = []
      split <;> rfl

/-- Witness for C8: a configured channel with 1000 subscribers suppresses
trending discovery. -/
theorem discoverFromTrending_suppressed_witness :
    discoverFromTrending (some ⟨"my channel", 1000⟩) = [] :=
  discoverFromTrending_suppressed.1 ⟨"my channel", 1000⟩ (by norm_num)

/-! ### Threshold filtering and ranking (C3) -/

theorem filter_orderedInsert_score (q : ℚ) (x : EvaluatedTopic) (l : List EvaluatedTopic) :
    (List.orderedInsert scoreGe x l).filter (fun t => t.total_score == q) =
      if x.total_score == q
      then x :: l.filter (fun t => t.total_score == q)
      else l.filter (fun t => t.total_score == q) := by
  induction l with
  | nil =>
    rw [List.orderedInsert_nil, List.filter_cons]
  | cons y ys ih =>
    by_cases hxy : scoreGe x y
    · rw [List.orderedInsert_of_le scoreGe ys hxy, List.filter_cons]
    · have hins : List.orderedInsert scoreGe x (y :: ys) =
          y :: List.orderedInsert scoreGe x ys := by
        show (if scoreGe x y then x :: y :: ys else y :: List.orderedInsert scoreGe x ys) = _
        rw [if_neg hxy]
      rw [hins, List.filter_cons, ih]
      by_cases hx : x.total_score = q
      · by_cases hy : y.total_score = q
        · exfalso
          exact hxy (le_of_eq (hy.trans hx.symm))
        · simp [hx, hy, List.filter_cons]
      · by_cases hy : y.total_score = q
        · simp [hx, hy, List.filter_cons]
        · simp [hx, hy, List.filter_cons]

theorem filter_insertionSort_score (q : ℚ) (l : List EvaluatedTopic) :
    (l.insertionSort scoreGe).filter (fun t => t.total_score == q) =
      l.filter (fun t => t.total_score == q) := by
  induction l with
  | nil => rfl
  | cons x xs ih =>
    show (List.orderedInsert scoreGe x (xs.insertionSort scoreGe)).filter _ = _
    rw [filter_orderedInsert_score, ih, List.filter_cons]

/-- C3: after evaluation, exactly the candidates with total_score at or above
the configured minimum are kept, ranked by total score descending with equal
scores left in input order (stable sort); with minimum 60 and totals
[72, 58, 81] the output is [81, 72] in that order. -/
theorem filterAndRank_spec :
    (∀ (evaluated : List EvaluatedTopic) (minScore : ℚ),
      (filterAndRank evaluated minScore).Perm
        (evaluated.filter (fun t => minScore ≤ t.total_score)) ∧
      (∀ t ∈ filterAndRank evaluated minScore,
        t ∈ evaluated ∧ minScore ≤ t.total_score) ∧
      (∀ t ∈ evaluated, minScore ≤ t.total_score →
        t ∈ filterAndRank evaluated minScore) ∧
      List.Sorted scoreGe (filterAndRank evaluated minScore) ∧
      (∀ q : ℚ,
        (filterAndRank evaluated minScore).filter (fun t => t.total_score == q) =
          (evaluated.filter (fun t => minScore ≤ t.total_score)).filter
            (fun t => t.total_score == q))) ∧
    filterAndRank [⟨"a", 72⟩, ⟨"b", 58⟩, ⟨"c", 81⟩] 60 = [⟨"c", 81⟩, ⟨"a", 72⟩] := by
  constructor
  · intro evaluated minScore
    have hperm : (filterAndRank evaluated minScore).Perm
        (evaluated.filter (fun t => minScore ≤ t.total_score)) :=
      List.perm_insertionSort scoreGe _
    refine ⟨hperm, ?_, ?_, List.sorted_insertionSort scoreGe _, ?_⟩
    · intro t ht
      have := hperm.mem_iff.mp ht
      have h2 := List.mem_filter.mp this
      exact ⟨h2.1, of_decide_eq_true h2.2⟩
    · intro t ht hsc
      exact hperm.mem_iff.mpr (List.mem_filter.mpr ⟨ht, decide_eq_true hsc⟩)
    · intro q
      exact filter_insertionSort_score q _
  · decide

/-- Witness for C3: a candidate meeting the threshold is in the ranked
output. -/
theorem filterAndRank_spec_witness :
    (⟨"a", 72⟩ : EvaluatedTopic) ∈ filterAndRank [⟨"a", 72⟩] 60 :=
  (filterAndRank_spec.1 [⟨"a", 72⟩] 60).2.2.1 ⟨"a", 72⟩ (by decide) (by decide)

/-! ### Batch evaluation (C10) -/

/-- C10: batch evaluation returns exactly one record per input topic — the
output length equals the input length and a topic whose provider call fails
contributes the default-50 record instead of being dropped — and the result
list is the input's evaluations sorted by total score descending. -/
theorem batchEvaluateTopics_spec :
    ∀ (topics : List String) (callResults : String → Option String),
      (batchEvaluateTopics topics callResults).length = topics.length ∧
      (batchEvaluateTopics topics callResults).Perm
        (topics.map (fun t => evaluateTopic t (callResults t))) ∧
      List.Sorted evalGe (batchEvaluateTopics topics callResults) ∧
      (∀ t ∈ topics, callResults t = none →
        defaultScores t ∈ batchEvaluateTopics topics callResults) := by
  intro topics callResults
  have hperm : (batchEvaluateTopics topics callResults).Perm
      (topics.map (fun t => evaluateTopic t (callResults t))) :=
    List.perm_insertionSort evalGe _
  refine ⟨?_, hperm, List.sorted_insertionSort evalGe _, ?_⟩
  · exact hperm.length_eq.trans (List.length_map _ _)
  · intro t ht hnone
    have hmem : evaluateTopic t (callResults t) ∈
        topics.map (fun t => evaluateTopic t (callResults t)) :=
      List.mem_map_of_mem _ ht
    rw [hnone] at hmem
    exact hperm.mem_iff.mpr hmem

/-- Witness for C10: a failing provider call yields the default record in the
batch output. -/
theorem batchEvaluateTopics_spec_witness :
    defaultScores "a" ∈ batchEvaluateTopics ["a"] (fun _ => none) :=
  (batchEvaluateTopics_spec ["a"] (fun _ => none)).2.2.2 "a" (by decide) rfl

/-! ### Competitor performance summary (C7) -/

theorem enrich_engagement_ne_zero (v : VideoStats) :
    (enrichVideo v).engagement_rate ≠ 0 ↔
      v.view_count ≠ 0 ∧ v.like_count + v.comment_count ≠ 0 := by
  by_cases hv : v.view_count = 0
  · simp [enrichVideo, hv]
  · have hv' : 0 < v.view_count := Nat.pos_of_ne_zero hv
    show (if 0 < v.view_count then
        ((v.like_count + v.comment_count : ℕ) : ℚ) / (v.view_count : ℚ) * 100 else 0) ≠ 0 ↔ _
    rw [if_pos hv']
    constructor
    · intro h
      refine ⟨hv, fun hlc => h ?_⟩
      rw [hlc]
      norm_num
    · rintro ⟨-, hlc⟩
      have h1 : ((v.like_count + v.comment_count : ℕ) : ℚ) ≠ 0 := Nat.cast_ne_zero.mpr hlc
      have h2 : ((v.view_count : ℕ) : ℚ) ≠ 0 := Nat.cast_ne_zero.mpr hv
      exact mul_ne_zero (div_ne_zero h1 h2) (by norm_num)

theorem enrich_engagement_bool (v : VideoStats) :
    ((enrichVideo v).engagement_rate != 0) =
      ((enrichVideo v).view_count != 0 &&
        (enrichVideo v).like_count + (enrichVideo v).comment_count != 0) := by
  rw [Bool.eq_iff_iff]
  simp only [bne_iff_ne, Bool.and_eq_true]
  exact enrich_engagement_ne_zero v

/-- C7 counterexample: for two ten-view videos where one has zero likes and
comments, the summary averages engagement over the videos with nonzero
engagement rate only, giving 10 — not over the videos with a nonzero view
denominator, which would give 5 — so the claimed aggregation set is wrong. -/
theorem analyzeVideoPerformance_counterexample :
    (analyzeVideoPerformance
        (([⟨10, 0, 0⟩, ⟨10, 1, 0⟩] : List VideoStats).map enrichVideo)).avg_engagement_rate
      = 10 ∧
    listMean (((([⟨10, 0, 0⟩, ⟨10, 1, 0⟩] : List VideoStats).map enrichVideo).filter
        (fun v => v.view_count != 0)).map (fun v => v.engagement_rate)) = 5 ∧
    (10 : ℚ) ≠ 5 := by
  have he1 : enrichVideo ⟨10, 0, 0⟩ = ⟨⟨10, 0, 0⟩, 0⟩ := by
    unfold enrichVideo
    norm_num
  have he2 : enrichVideo ⟨10, 1, 0⟩ = ⟨⟨10, 1, 0⟩, 10⟩ := by
    unfold enrichVideo
    norm_num
  have hm : ([⟨10, 0, 0⟩, ⟨10, 1, 0⟩] : List VideoStats).map enrichVideo =
      [⟨⟨10, 0, 0⟩, 0⟩, ⟨⟨10, 1, 0⟩, 10⟩] := by
    rw [List.map_cons, List.map_cons, List.map_nil, he1, he2]
  refine ⟨?_, ?_, by norm_num⟩
  · rw [hm]
    show listMean [(10 : ℚ)] = 10
    norm_num [listMean]
  · rw [hm]
    show listMean [(0 : ℚ), 10] = 5
    norm_num [listMean]

/-- C7 (amended): for every enriched video list, avg and median views are
computed over exactly the videos with a nonzero view count, while the average
engagement rate is computed over exactly the videos with a nonzero engagement
rate — equivalently, nonzero views and a nonzero like+comment total — with
each aggregate 0 when no video qualifies; the empty list yields all zeros and
empty lists; and per video the engagement rate is (likes+comments)/views×100,
0 when views are 0. -/
theorem analyzeVideoPerformance_amended :
    analyzeVideoPerformance [] = ⟨0, 0, 0, []⟩ ∧
    (∀ v : VideoStats, (enrichVideo v).engagement_rate =
      (if 0 < v.view_count then
        ((v.like_count + v.comment_count : ℕ) : ℚ) / (v.view_count : ℚ) * 100 else 0)) ∧
    (∀ raw : List VideoStats,
      (analyzeVideoPerformance (raw.map enrichVideo)).avg_views =
        (if (((raw.map enrichVideo).filter (fun v => v.view_count != 0)).map
              (fun v => (v.view_count : ℚ))).isEmpty then 0
         else listMean (((raw.map enrichVideo).filter (fun v => v.view_count != 0)).map
              (fun v => (v.view_count : ℚ)))) ∧
      (analyzeVideoPerformance (raw.map enrichVideo)).median_views =
        (if (((raw.map enrichVideo).filter (fun v => v.view_count != 0)).map
              (fun v => (v.view_count : ℚ))).isEmpty then 0
         else listMedian (((raw.map enrichVideo).filter (fun v => v.view_count != 0)).map
              (fun v => (v.view_count : ℚ)))) ∧
      (analyzeVideoPerformance (raw.map enrichVideo)).avg_engagement_rate =
        (if (((raw.map enrichVideo).filter
              (fun v => v.view_count != 0 && v.like_count + v.comment_count != 0)).map
              (fun v => v.engagement_rate)).isEmpty then 0
         else listMean (((raw.map enrichVideo).filter
              (fun v => v.view_count != 0 && v.like_count + v.comment_count != 0)).map
              (fun v => v.engagement_rate)))) := by
  refine ⟨rfl, ?_, ?_⟩
  · intro v
    rfl
  · intro raw
    have hfil : (raw.map enrichVideo).filter (fun v => v.engagement_rate != 0) =
        (raw.map enrichVideo).filter
          (fun v => v.view_count != 0 && v.like_count + v.comment_count != 0) := by
      apply List.filter_congr
      intro x hx
      rcases List.mem_map.mp hx with ⟨v, -, rfl⟩
      exact enrich_engagement_bool v
    cases raw with
    | nil => exact ⟨rfl, rfl, rfl⟩
    | cons a l =>
      refine ⟨rfl, rfl, ?_⟩
      show (if (((a :: l).map enrichVideo).filter (fun v => v.engagement_rate != 0)).map
              (fun v => v.engagement_rate) |>.isEmpty then (0 : ℚ)
            else listMean ((((a :: l).map enrichVideo).filter
              (fun v => v.engagement_rate != 0)).map (fun v => v.engagement_rate))) = _
      rw [hfil]

/-! ### Upload cadence (C9) -/

/-- C9 counterexample: three videos spanning nine days have exact rate
3 / (9/7) = 7/3, but the returned `videos_per_week` is that rate rounded to
one decimal, 23/10 — so the returned field does not equal the claimed
quotient. -/
theorem calculateUploadFrequency_counterexample :
    (calculateUploadFrequency
        [⟨some 0⟩, ⟨some 0⟩, ⟨some 777600⟩]).videos_per_week = 23 / 10 ∧
    (([⟨some 0⟩, ⟨some 0⟩, ⟨some 777600⟩] : List DatedVideo).length : ℚ) /
        ((spanDays [⟨some 0⟩, ⟨some 0⟩, ⟨some 777600⟩] : ℚ) / 7) = 7 / 3 ∧
    (23 / 10 : ℚ) ≠ 7 / 3 := by
  have hspan : spanDays [⟨some 0⟩, ⟨some 0⟩, ⟨some 777600⟩] = 9 := by decide
  have hrate : rawRate [⟨some 0⟩, ⟨some 0⟩, ⟨some 777600⟩] = 7 / 3 := by
    unfold rawRate
    rw [hspan]
    norm_num
  have hfloor : ⌊(7 / 3 : ℚ) * 10⌋ = 23 := by
    rw [Int.floor_eq_iff]
    norm_num
  have hround : pythonRound1 (7 / 3 : ℚ) = 23 / 10 := by
    simp only [pythonRound1, roundHalfEven, hfloor]
    rw [if_pos (by norm_num : (7 / 3 : ℚ) * 10 - ((23 : ℤ) : ℚ) < 1 / 2)]
    norm_num
  have hvw : (calculateUploadFrequency
      [⟨some 0⟩, ⟨some 0⟩, ⟨some 777600⟩]).videos_per_week =
      pythonRound1 (rawRate [⟨some 0⟩, ⟨some 0⟩, ⟨some 777600⟩]) := by
    unfold calculateUploadFrequency
    rw [if_neg (by decide), if_neg (by decide), if_neg (by rw [hspan]; decide)]
  refine ⟨?_, ?_, by norm_num⟩
  · rw [hvw, hrate, hround]
  · exact hrate

/-- C9 (amended): fewer than two parseable dates, or a zero-day span between
oldest and newest, yields rate 0 and consistency "unknown"; otherwise the
division's denominator is nonzero (no division error is possible), the
returned `videos_per_week` is `video_count / (date_span_days / 7)` rounded to
one decimal, and the consistency label classifies the unrounded rate:
"daily" at ≥ 7, "frequent" at ≥ 3, "weekly" at ≥ 1, else "occasional". -/
theorem calculateUploadFrequency_amended :
    ∀ videos : List DatedVideo,
      ((parsedDates videos).length < 2 →
        calculateUploadFrequency videos = ⟨0, "unknown"⟩) ∧
      (spanDays videos = 0 → calculateUploadFrequency videos = ⟨0, "unknown"⟩) ∧
      (2 ≤ (parsedDates videos).length → spanDays videos ≠ 0 →
        ((spanDays videos : ℚ) / 7 ≠ 0 ∧
         (calculateUploadFrequency videos).videos_per_week =
           pythonRound1 ((videos.length : ℚ) / ((spanDays videos : ℚ) / 7)) ∧
         (7 ≤ rawRate videos → (calculateUploadFrequency videos).consistency = "daily") ∧
         (3 ≤ rawRate videos → rawRate videos < 7 →
           (calculateUploadFrequency videos).consistency = "frequent") ∧
         (1 ≤ rawRate videos → rawRate videos < 3 →
           (calculateUploadFrequency videos).consistency = "weekly") ∧
         (rawRate videos < 1 →
           (calculateUploadFrequency videos).consistency = "occasional"))) := by
  intro videos
  refine ⟨?_, ?_, ?_⟩
  · intro h
    unfold calculateUploadFrequency
    by_cases hv : videos.length < 2
    · rw [if_pos hv]
    · rw [if_neg hv, if_pos h]
  · intro h
    unfold calculateUploadFrequency
    by_cases hv : videos.length < 2
    · rw [if_pos hv]
    · rw [if_neg hv]
      by_cases hd : (parsedDates videos).length < 2
      · rw [if_pos hd]
      · rw [if_neg hd, if_pos h]
  · intro hlen hspan
    have hle : (parsedDates videos).length ≤ videos.length :=
      List.length_filterMap_le _ _
    have hv : ¬ videos.length < 2 := by omega
    have hd : ¬ (parsedDates videos).length < 2 := by omega
    have hcons : (calculateUploadFrequency videos).consistency =
        (if rawRate videos ≥ 7 then "daily"
         else if rawRate videos ≥ 3 then "frequent"
         else if rawRate videos ≥ 1 then "weekly"
         else "occasional") := by
      unfold calculateUploadFrequency
      rw [if_neg hv, if_neg hd, if_neg hspan]
    refine ⟨div_ne_zero (Int.cast_ne_zero.mpr hspan) (by norm_num), ?_, ?_, ?_, ?_, ?_⟩
    · unfold calculateUploadFrequency
      rw [if_neg hv, if_neg hd, if_neg hspan]
      rfl
    · intro h7
      rw [hcons, if_pos h7]
    · intro h3 h7
      rw [hcons, if_neg (not_le.mpr h7), if_pos h3]
    · intro h1 h3
      rw [hcons, if_neg (not_le.mpr (lt_trans h3 (by norm_num))),
        if_neg (not_le.mpr h3), if_pos h1]
    · intro h1
      rw [hcons, if_neg (not_le.mpr (lt_trans h1 (by norm_num))),
        if_neg (not_le.mpr (lt_trans h1 (by norm_num))),
        if_neg (not_le.mpr h1)]

/-- Witness for C9 (amended): on the three concrete videos spanning nine
days the guards pass and the stored rate is the rounded quotient. -/
theorem calculateUploadFrequency_amended_witness :
    (calculateUploadFrequency
        [⟨some 0⟩, ⟨some 0⟩, ⟨some 777600⟩]).videos_per_week =
      pythonRound1
        ((([⟨some 0⟩, ⟨some 0⟩, ⟨some 777600⟩] : List DatedVideo).length : ℚ) /
          ((spanDays [⟨some 0⟩, ⟨some 0⟩, ⟨some 777600⟩] : ℚ) / 7)) :=
  ((calculateUploadFrequency_amended [⟨some 0⟩, ⟨some 0⟩, ⟨some 777600⟩]).2.2
    (by decide) (by decide)).2.1
